import Mathlib

/-!
Shallow embedding of `src/resource/texture_resource.cpp` (crown engine):
the texture resource compiler (`texture_format_to_enum`, `OutputSettings`,
`parse_output`, `compile`) and the runtime side (`load`, `online`, `offline`),
together with the resource-manager lifecycle described by the specification.

Machine integers are modelled as `Nat`/`Int` with explicit `% 2^32` where
32-bit wraparound matters; fallible operations return `Except`.
-/

namespace Crown

/-- Config object tree produced by the structured config parser (sjson).
Nodes are tagged variants over string/number/bool/array/object, object
fields are an association list looked up by exact key string. -/
inductive Json where
  | str (s : String)
  | num (n : Int)
  | boolean (b : Bool)
  | arr (items : List Json)
  | obj (fields : List (String × Json))

/-- A parsed JSON object: association list from key to value (mirrors
`JsonObject` in the source). -/
def JsonObject := List (String × Json)

/-- Error taxonomy of a texture compile / load job (spec section 7). -/
inductive CompileError where
  | parse
  | missingKey (k : String)
  | sourceNotFound
  | unknownFormat
  | toolchainNotFound
  | spawnFailed (exe : String)
  | toolchainExitFailure (msg : String)
deriving DecidableEq

/-- `json_object::has(obj, key)` from the source: key membership test. -/
def json_object_has (o : JsonObject) (k : String) : Bool :=
  (List.find? (fun p => p.1 == k) o).isSome

/-- `obj[key]` from the source: first binding of the key; a missing key is
a failure (downstream sjson parsing of a null range cannot succeed). -/
def json_object_get (o : JsonObject) (k : String) : Except CompileError Json :=
  match List.find? (fun p => p.1 == k) o with
  | some p => .ok p.2
  | none => .error (.missingKey k)

/-- `sjson::parse_object`: the value must be an object node. -/
def sjson_parse_object (j : Json) : Except CompileError JsonObject :=
  match j with
  | .obj fields => .ok fields
  | _ => .error .parse

/-- `sjson::parse_string`: the value must be a string node. -/
def sjson_parse_string (j : Json) : Except CompileError String :=
  match j with
  | .str s => .ok s
  | _ => .error .parse

/-- `sjson::parse_bool`: the value must be a bool node. -/
def sjson_parse_bool (j : Json) : Except CompileError Bool :=
  match j with
  | .boolean b => .ok b
  | _ => .error .parse

/-- `sjson::parse_int`: the value must be a number node (s32 in the source). -/
def sjson_parse_int (j : Json) : Except CompileError Int :=
  match j with
  | .num n => .ok n
  | _ => .error .parse

/-- `TextureFormat::Enum` from the source; `COUNT` is the one-past-the-end
sentinel returned for unrecognized names. -/
inductive TextureFormat where
  | BC1
  | BC2
  | BC3
  | BC4
  | BC5
  | PTC14
  | RGB8
  | RGBA8
  | COUNT
deriving DecidableEq, Fintype

/-- One row of the `s_texture_formats` table. -/
structure TextureFormatInfo where
  name : String
  type : TextureFormat
deriving DecidableEq

/-- The `s_texture_formats` table, in source order (the static assert in the
source pins the table order to the enum order). -/
def s_texture_formats : List TextureFormatInfo :=
  [ ⟨"BC1", .BC1⟩
  , ⟨"BC2", .BC2⟩
  , ⟨"BC3", .BC3⟩
  , ⟨"BC4", .BC4⟩
  , ⟨"BC5", .BC5⟩
  , ⟨"PTC14", .PTC14⟩
  , ⟨"RGB8", .RGB8⟩
  , ⟨"RGBA8", .RGBA8⟩
  ]

/-- The eight recognized format names, in table order. -/
def recognizedFormatNames : List String :=
  List.map (fun i => i.name) s_texture_formats

/-- `texture_format_to_enum`: linear scan of `s_texture_formats`; returns
`COUNT` when no row matches. -/
def texture_format_to_enum (format : String) : TextureFormat :=
  match List.find? (fun i => i.name == format) s_texture_formats with
  | some i => i.type
  | none => .COUNT

/-- Index of a format value into `s_texture_formats` (the enum's integer
value in the source). -/
def TextureFormat.toIdx : TextureFormat → Nat
  | .BC1 => 0
  | .BC2 => 1
  | .BC3 => 2
  | .BC4 => 3
  | .BC5 => 4
  | .PTC14 => 5
  | .RGB8 => 6
  | .RGBA8 => 7
  | .COUNT => 8

/-- `s_texture_formats[os.format].name` from the source: table lookup by
enum index (out-of-range yields the empty string; unreachable for formats
that passed validation). -/
def format_name (f : TextureFormat) : String :=
  match List.get? s_texture_formats f.toIdx with
  | some i => i.name
  | none => ""

/-- `OutputSettings` with the defaults set by its constructor in the source. -/
structure OutputSettings where
  format : TextureFormat := .RGBA8
  generate_mips : Bool := true
  mip_skip_smallest : Nat := 0
  normal_map : Bool := false
deriving DecidableEq

/-- `parse_output(os, output, opts)` from the source: when the `output`
object has a key equal to the current platform name, parse that sub-object
and override each of the four settings whose key is present; an
unrecognized `format` string is a hard fault.  The s32 value parsed for
`mip_skip_smallest` is stored into a u32 field, hence the `% 2^32`. -/
def parse_output (os : OutputSettings) (output : JsonObject) (platform : String) :
    Except CompileError OutputSettings := do
  if json_object_has output platform then
    let obj ← sjson_parse_object (← json_object_get output platform)
    let os ←
      if json_object_has obj "format" then do
        let fmt ← sjson_parse_string (← json_object_get obj "format")
        let f := texture_format_to_enum fmt
        if f = .COUNT then
          throw .unknownFormat
        else
          pure { os with format := f }
      else
        pure os
    let os ←
      if json_object_has obj "generate_mips" then do
        let b ← sjson_parse_bool (← json_object_get obj "generate_mips")
        pure { os with generate_mips := b }
      else
        pure os
    let os ←
      if json_object_has obj "mip_skip_smallest" then do
        let n ← sjson_parse_int (← json_object_get obj "mip_skip_smallest")
        pure { os with mip_skip_smallest := (n % (2 ^ 32 : Int)).toNat }
      else
        pure os
    let os ←
      if json_object_has obj "normal_map" then do
        let b ← sjson_parse_bool (← json_object_get obj "normal_map")
        pure { os with normal_map := b }
      else
        pure os
    pure os
  else
    pure os

/-- The output-settings resolution step of `compile` (source lines 184-194):
when the descriptor has an `output` key, parse it as an object and call
`parse_output`; otherwise read the legacy top-level `generate_mips` and
`normal_map` keys, leaving `format` at its default. -/
def resolve_output_settings (obj : JsonObject) (platform : String) :
    Except CompileError OutputSettings := do
  let os : OutputSettings := {}
  if json_object_has obj "output" then
    let output ← sjson_parse_object (← json_object_get obj "output")
    parse_output os output platform
  else do
    let gm ← sjson_parse_bool (← json_object_get obj "generate_mips")
    let nm ← sjson_parse_bool (← json_object_get obj "normal_map")
    pure { os with generate_mips := gm, normal_map := nm }

/-- Follows the spec's words, for comparison with the source's
`resolve_output_settings` (spec section 4.3 step 2): "if an `output`
object keyed by platform name exists and contains the current platform,
parse format/mip/gamma overrides from that sub-object; otherwise fall
back to top-level `generate_mips`/`normal_map` keys (legacy shape) with
format left at default" — so under the spec the top-level fallback also
applies when `output` exists but lacks the current platform. -/
def resolve_output_settings_spec (obj : JsonObject) (platform : String) :
    Except CompileError OutputSettings := do
  let os : OutputSettings := {}
  if json_object_has obj "output" &&
      (match json_object_get obj "output" with
       | .ok (.obj output) => json_object_has output platform
       | _ => false) then
    let output ← sjson_parse_object (← json_object_get obj "output")
    parse_output os output platform
  else do
    let gm ← sjson_parse_bool (← json_object_get obj "generate_mips")
    let nm ← sjson_parse_bool (← json_object_get obj "normal_map")
    pure { os with generate_mips := gm, normal_map := nm }

/-- The `char mipskip[16]` buffer filled by `stbsp_snprintf(mipskip, 16,
"--mipskip %u", os.mip_skip_smallest)`: at most 15 characters are kept
(snprintf truncates to the buffer size minus the terminator). -/
def mipskip_str (n : Nat) : String :=
  String.mk (List.take 15 (String.data ("--mipskip " ++ toString n)))

/-- The `argv` array built by `compile` (source lines 210-224), without the
trailing NULL: disabled optional flags are passed as empty strings, and a
positive mip-skip count contributes the flag token and the combined
snprintf-formatted token. -/
def build_argv (texturec tex_src tex_out : String) (os : OutputSettings) :
    List String :=
  [ texturec
  , "-f"
  , tex_src
  , "-o"
  , tex_out
  , "-t"
  , format_name os.format
  , (if os.normal_map then "-n" else "")
  , (if os.generate_mips then "-m" else "")
  , (if os.mip_skip_smallest > 0 then "--mipskip" else "")
  , (if os.mip_skip_smallest > 0 then mipskip_str os.mip_skip_smallest else "")
  ]

/-- Modelled from the spec: `RESOURCE_VERSION_TEXTURE` comes from
`resource/texture_resource.h`, which is not among the sources; the spec
only requires a fixed tag compounding resource-type id and schema
revision.  The claims do not depend on the numeric value. -/
def RESOURCE_VERSION_TEXTURE : Nat := 1

/-- Modelled from the spec: the `RESOURCE_HEADER` macro (not among the
sources) produces the u32 version tag written at the head of every
compiled resource. -/
def RESOURCE_HEADER (version : Nat) : Nat := version % 2 ^ 32

/-- The version tag of compiled texture resources. -/
def RESOURCE_HEADER_TEXTURE : Nat := RESOURCE_HEADER RESOURCE_VERSION_TEXTURE

/-- Modelled from the spec: the binary resource stream is little-endian
(spec section 6), so a u32 is written as four bytes, least significant
first.  The writer (`compile_options.inl`) is not among the sources. -/
def u32le (v : Nat) : List Nat :=
  [v % 256, v / 256 % 256, v / 65536 % 256, v / 16777216 % 256]

/-- Modelled from the spec: the little-endian u32 read performed by
`BinaryReader` (`reader_writer.inl` is not among the sources). -/
def decodeU32 (bytes : List Nat) : Nat :=
  match bytes with
  | [a, b, c, d] => a + 256 * b + 65536 * c + 16777216 * d
  | _ => 0

/-- Everything `compile` observes from its `CompileOptions` toolchain
context and the outside world: the parsed descriptor, the platform name,
whether the source image exists, the located converter executable, the
resolved input/temporary paths, the spawn outcome, the converter's exit
code and captured combined output, and the bytes of the converter's
temporary output file. -/
structure CompileEnv where
  descriptor : Json
  platform : String
  source_exists : Bool
  texturec : Option String
  tex_src : String
  tex_out : String
  spawn_ok : Bool
  exit_code : Int
  combined_output : String
  temp_blob : List Nat

/-- `compile(opts)` from the source, step for step: parse the descriptor,
read the required `source` key, check the file exists, resolve output
settings, locate `texturec`, build the argv, spawn the converter, fail
with the captured combined output if it exits nonzero, then emit the
versioned header followed by the converter's output bytes.  The returned
byte list is the compiled-output stream; every error path returns before
anything is written (compilation is all-or-nothing per asset). -/
def compile (env : CompileEnv) : Except CompileError (List Nat) := do
  let obj ← sjson_parse_object env.descriptor
  let name ← sjson_parse_string (← json_object_get obj "source")
  if env.source_exists then pure () else throw .sourceNotFound
  let os ← resolve_output_settings obj env.platform
  let texturec ←
    match env.texturec with
    | some p => pure p
    | none => throw .toolchainNotFound
  let _argv := build_argv texturec env.tex_src env.tex_out os
  let _ := name
  if env.spawn_ok then pure () else throw (.spawnFailed texturec)
  if env.exit_code = 0 then pure ()
  else throw (.toolchainExitFailure ("Failed to compile texture:\n" ++ env.combined_output))
  let blob := env.temp_blob
  pure (u32le RESOURCE_HEADER_TEXTURE ++ u32le (blob.length % 2 ^ 32) ++ blob)

/-- Modelled external constant: bgfx's invalid-handle sentinel
(`BGFX_INVALID_HANDLE`, i.e. `UINT16_MAX`). -/
def BGFX_INVALID_HANDLE : Nat := 65535

/-- The in-memory texture resource: the trailing payload blob referenced by
`tr->mem` and the backend texture handle `tr->handle`. -/
structure TextureResource where
  mem : List Nat
  handle : Nat
deriving DecidableEq

/-- Failure modes of `load`: the fatal version-mismatch assertion, and a
short read (treated as corruption per spec section 3; `BinaryReader` is
not among the sources). -/
inductive LoadError where
  | wrongVersion
  | shortRead
deriving DecidableEq

/-- `load(file, a)` from the source: read the u32 version tag and assert it
equals `RESOURCE_HEADER(RESOURCE_VERSION_TEXTURE)` (fatal on mismatch,
before anything else happens), read the u32 payload size, allocate the
trailing-blob structure, read the payload into it, and initialize the
backend handle to the invalid sentinel. -/
def load (file : List Nat) : Except LoadError TextureResource :=
  if file.length < 4 then .error .shortRead
  else if decodeU32 (file.take 4) ≠ RESOURCE_HEADER_TEXTURE then .error .wrongVersion
  else
    let rest := file.drop 4
    if rest.length < 4 then .error .shortRead
    else
      let size := decodeU32 (rest.take 4)
      let data := rest.drop 4
      if data.length < size then .error .shortRead
      else .ok { mem := data.take size, handle := BGFX_INVALID_HANDLE }

/-- Minimal model of the bgfx backend: a fresh-handle counter and the set
of live backend texture objects. -/
structure Bgfx where
  next : Nat
  live : List Nat
deriving DecidableEq

/-- `bgfx::createTexture(mem)`: allocates a fresh backend object for the
given payload and returns its handle. -/
def bgfx_createTexture (b : Bgfx) (mem : List Nat) : Nat × Bgfx :=
  let _ := mem
  (b.next, ⟨b.next + 1, b.next :: b.live⟩)

/-- `bgfx::destroy(handle)`: releases the backend object. -/
def bgfx_destroy (b : Bgfx) (h : Nat) : Bgfx :=
  ⟨b.next, b.live.erase h⟩

/-- `online(id, rm)` from the source, expressed directly on the resource
the manager looks up: attach a backend texture created from the resource's
payload, storing its handle in the `handle` field. -/
def online (b : Bgfx) (tr : TextureResource) : TextureResource × Bgfx :=
  let hb := bgfx_createTexture b tr.mem
  ({ tr with handle := hb.1 }, hb.2)

/-- `offline(id, rm)` from the source, expressed directly on the resource:
destroy the backend object; the resource struct itself (payload and handle
field) is not written at all. -/
def offline (b : Bgfx) (tr : TextureResource) : TextureResource × Bgfx :=
  (tr, bgfx_destroy b tr.handle)

/-- Descriptor-side builder for a platform output block with each of the
four recognized settings keys independently present or absent. -/
def mkBlock (f : Option String) (gm : Option Bool) (ms : Option Int) (nm : Option Bool) :
    Json :=
  .obj ((f.map fun s => ("format", Json.str s)).toList ++
        (gm.map fun b => ("generate_mips", Json.boolean b)).toList ++
        (ms.map fun i => ("mip_skip_smallest", Json.num i)).toList ++
        (nm.map fun b => ("normal_map", Json.boolean b)).toList)

/-- An asset descriptor with a `source` key and an `output` object holding
a single platform block. -/
def mkOutputDescriptor (src platform : String) (block : Json) : Json :=
  .obj [("source", .str src), ("output", .obj [(platform, block)])]

/-- A compile environment in which every toolchain-context step succeeds:
the source exists, the converter is found, spawns, and exits 0, leaving
`blob` in its temporary output file. -/
def happyEnv (d : Json) (blob : List Nat) : CompileEnv :=
  { descriptor := d
  , platform := "linux"
  , source_exists := true
  , texturec := some "texturec"
  , tex_src := "src.png"
  , tex_out := "out.ktx"
  , spawn_ok := true
  , exit_code := 0
  , combined_output := ""
  , temp_blob := blob }

/-- Modelled from the spec: the resource-manager lifecycle state of one
resource instance (spec section 4.5); the manager itself is not among the
sources, only the per-type callbacks are. -/
inductive RState where
  | unloaded
  | loaded
  | online
  | offline
deriving DecidableEq, Fintype

/-- Lifecycle events applied to one resource instance. -/
inductive REvent where
  | load
  | online
  | offline
  | unload
deriving DecidableEq, Fintype

/-- Modelled from the spec: the lifecycle transition relation
`Unloaded → Loaded → Online ⇄ Offline → Unloaded`; every transition not in
the diagram is rejected (`none`), in particular `unload` of an online
resource. -/
def lifecycle_step : RState → REvent → Option RState
  | .unloaded, .load => some .loaded
  | .loaded, .online => some .online
  | .offline, .online => some .online
  | .online, .offline => some .offline
  | .offline, .unload => some .unloaded
  | _, _ => none

end Crown

namespace Crown

/-- Little-endian round-trip of the u32 encoding used by the resource
header. -/
theorem decode_u32le (v : Nat) (h : v < 2 ^ 32) : decodeU32 (u32le v) = v := by
  simp [decodeU32, u32le]; omega

/-- Evaluation of `parse_output` on a matching platform block with each
settings key independently present or absent: present keys override their
own setting, absent keys leave the constructor default. -/
theorem parse_output_mkBlock (platform : String) (f : Option String) (gm : Option Bool)
    (ms : Option Int) (nm : Option Bool)
    (hf : ∀ s, f = some s → texture_format_to_enum s ≠ .COUNT) :
    parse_output {} [(platform, mkBlock f gm ms nm)] platform =
      .ok { format := match f with
                      | none => .RGBA8
                      | some s => texture_format_to_enum s
          , generate_mips := gm.getD true
          , mip_skip_smallest := match ms with
                                 | none => 0
                                 | some i => (i % (2 ^ 32 : Int)).toNat
          , normal_map := nm.getD false } := by
  rcases f with _ | s <;> rcases gm with _ | g <;> rcases ms with _ | m <;> rcases nm with _ | n <;>
    simp_all [parse_output, mkBlock, json_object_has, json_object_get, sjson_parse_object,
      sjson_parse_string, sjson_parse_bool, sjson_parse_int, bind, Except.bind, pure, Except.pure]

/-- The snprintf buffer content, as characters. -/
theorem mipskip_str_data (n : Nat) :
    (mipskip_str n).data = List.take 15 ("--mipskip ".data ++ (toString n).data) := by
  simp [mipskip_str, String.data_append]

/-- Length of the snprintf buffer content. -/
theorem mipskip_str_length (n : Nat) :
    (mipskip_str n).data.length = min 15 (10 + (toString n).data.length) := by
  simp [mipskip_str_data, List.length_take]
  omega

/-- The combined mipskip token is always at least 10 characters long. -/
theorem mipskip_str_len10 (n : Nat) : 10 ≤ (mipskip_str n).data.length := by
  have := mipskip_str_length n
  omega

/-- A string shorter than 10 characters is never the combined mipskip
token. -/
theorem ne_mipskip_str_of_short (s : String) (k : Nat) (h : s.data.length < 10) :
    s ≠ mipskip_str k := by
  intro he
  have := mipskip_str_len10 k
  rw [← he] at this
  omega

/-- The combined mipskip token is never the bare flag. -/
theorem mipskip_str_ne_flag (k : Nat) : mipskip_str k ≠ "--mipskip" := by
  intro he
  have h10 := mipskip_str_len10 k
  rw [he] at h10
  have h9 : ("--mipskip".data).length = 9 := by decide
  omega

/-- Every format name in the table is short and is not the mipskip flag. -/
theorem format_name_short (f : TextureFormat) :
    (format_name f).data.length < 10 ∧ format_name f ≠ "--mipskip" := by
  cases f <;> exact ⟨by decide, by decide⟩

/-- With a positive mip-skip count, the argv contains the bare flag token
exactly once and the combined snprintf token exactly once (given that the
three path strings are not mipskip tokens themselves). -/
theorem build_argv_mipskip_count (t src out : String) (os : OutputSettings)
    (ht1 : t ≠ "--mipskip") (ht2 : ∀ k, t ≠ mipskip_str k)
    (hs1 : src ≠ "--mipskip") (hs2 : ∀ k, src ≠ mipskip_str k)
    (ho1 : out ≠ "--mipskip") (ho2 : ∀ k, out ≠ mipskip_str k)
    (hpos : 0 < os.mip_skip_smallest) :
    (build_argv t src out os).count "--mipskip" = 1 ∧
      (build_argv t src out os).count (mipskip_str os.mip_skip_smallest) = 1 := by
  have hfn := format_name_short os.format
  have hfn2 := ne_mipskip_str_of_short (format_name os.format) os.mip_skip_smallest hfn.1
  have ht2' := ht2 os.mip_skip_smallest
  have hs2' := hs2 os.mip_skip_smallest
  have ho2' := ho2 os.mip_skip_smallest
  have hflag := mipskip_str_ne_flag os.mip_skip_smallest
  have l1 := ne_mipskip_str_of_short "" os.mip_skip_smallest (by decide)
  have l2 := ne_mipskip_str_of_short "-f" os.mip_skip_smallest (by decide)
  have l3 := ne_mipskip_str_of_short "-o" os.mip_skip_smallest (by decide)
  have l4 := ne_mipskip_str_of_short "-t" os.mip_skip_smallest (by decide)
  have l5 := ne_mipskip_str_of_short "-m" os.mip_skip_smallest (by decide)
  have l6 := ne_mipskip_str_of_short "-n" os.mip_skip_smallest (by decide)
  cases hm : os.normal_map <;> cases hg : os.generate_mips <;>
    simp_all [build_argv, List.count_cons, hpos, beq_iff_eq]

/-- With a zero mip-skip count, no argv element is the bare flag or any
combined mipskip token (given the same side conditions on the paths). -/
theorem build_argv_no_mipskip (t src out : String) (os : OutputSettings)
    (ht1 : t ≠ "--mipskip") (ht2 : ∀ k, t ≠ mipskip_str k)
    (hs1 : src ≠ "--mipskip") (hs2 : ∀ k, src ≠ mipskip_str k)
    (ho1 : out ≠ "--mipskip") (ho2 : ∀ k, out ≠ mipskip_str k)
    (hzero : os.mip_skip_smallest = 0) :
    (build_argv t src out os).count "--mipskip" = 0 ∧
      ∀ k, (build_argv t src out os).count (mipskip_str k) = 0 := by
  have hfn := format_name_short os.format
  refine ⟨?_, fun k => ?_⟩
  · cases hm : os.normal_map <;> cases hg : os.generate_mips <;>
      simp_all [build_argv, hzero, List.count_cons, beq_iff_eq]
  · have hfn2 := ne_mipskip_str_of_short (format_name os.format) k hfn.1
    have ht2' := ht2 k
    have hs2' := hs2 k
    have ho2' := ho2 k
    have l1 := ne_mipskip_str_of_short "" k (by decide)
    have l2 := ne_mipskip_str_of_short "-f" k (by decide)
    have l3 := ne_mipskip_str_of_short "-o" k (by decide)
    have l4 := ne_mipskip_str_of_short "-t" k (by decide)
    have l5 := ne_mipskip_str_of_short "-m" k (by decide)
    have l6 := ne_mipskip_str_of_short "-n" k (by decide)
    cases hm : os.normal_map <;> cases hg : os.generate_mips <;>
      simp_all [build_argv, hzero, List.count_cons, beq_iff_eq]

end Crown

namespace Crown

/-- A descriptor whose `output` object holds exactly the current platform
resolves through `parse_output` on that object. -/
theorem resolve_with_output (src platform : String) (block : Json) :
    resolve_output_settings [("source", .str src), ("output", .obj [(platform, block)])]
      platform = parse_output {} [(platform, block)] platform := by
  simp [resolve_output_settings, json_object_has, json_object_get, sjson_parse_object,
    bind, Except.bind]

/-- When the `output` object exists but has no key for the current
platform, resolution yields the constructor defaults and ignores the
top-level legacy keys entirely. -/
theorem resolve_output_without_platform (src p' platform : String) (block : Json)
    (g n : Bool) (hne : p' ≠ platform) :
    resolve_output_settings
      [("source", .str src), ("output", .obj [(p', block)]),
       ("generate_mips", .boolean g), ("normal_map", .boolean n)] platform = .ok {} := by
  simp [resolve_output_settings, parse_output, json_object_has, json_object_get,
    sjson_parse_object, bind, Except.bind, pure, Except.pure, beq_iff_eq, hne]

/-- Without an `output` key, resolution reads the top-level legacy keys
and leaves the format at its default. -/
theorem resolve_legacy (src platform : String) (g n : Bool) :
    resolve_output_settings
      [("source", .str src), ("generate_mips", .boolean g), ("normal_map", .boolean n)]
      platform = .ok { generate_mips := g, normal_map := n } := by
  simp [resolve_output_settings, json_object_has, json_object_get, sjson_parse_bool,
    bind, Except.bind, pure, Except.pure]

/-- `load` applied to a well-formed compiled stream recovers the payload
and initializes the handle to the invalid sentinel. -/
theorem load_stream (p : List Nat) (hp : p.length < 2 ^ 32) :
    load (u32le RESOURCE_HEADER_TEXTURE ++ u32le p.length ++ p) =
      .ok { mem := p, handle := BGFX_INVALID_HANDLE } := by
  have e : (u32le RESOURCE_HEADER_TEXTURE ++ u32le p.length ++ p) =
      1 :: 0 :: 0 :: 0 :: (p.length % 256) :: (p.length / 256 % 256) ::
        (p.length / 65536 % 256) :: (p.length / 16777216 % 256) :: p := by
    simp [u32le, RESOURCE_HEADER_TEXTURE, RESOURCE_HEADER, RESOURCE_VERSION_TEXTURE]
  rw [e]
  have hdec : p.length % 256 + 256 * (p.length / 256 % 256) +
      65536 * (p.length / 65536 % 256) + 16777216 * (p.length / 16777216 % 256) =
      p.length := by omega
  simp [load, List.take, List.drop, decodeU32, RESOURCE_HEADER_TEXTURE, RESOURCE_HEADER,
    RESOURCE_VERSION_TEXTURE, hdec, List.take_length]
  rw [if_neg (by omega), if_neg (by omega)]

/-- Evaluation of `compile` through all the toolchain-context steps: once
the descriptor parses, the source exists, the settings resolve, the
converter is found and spawns, the outcome hinges on the converter's exit
code — a zero exit writes the header and blob, a nonzero exit fails with
the captured combined output and writes nothing. -/
theorem compile_eval (env : CompileEnv) (fields : List (String × Json)) (srcName t : String)
    (os : OutputSettings)
    (hdesc : env.descriptor = .obj fields)
    (hsrc : json_object_get fields "source" = .ok (.str srcName))
    (hex : env.source_exists = true)
    (hres : resolve_output_settings fields env.platform = .ok os)
    (htc : env.texturec = some t)
    (hsp : env.spawn_ok = true) :
    compile env = if env.exit_code = 0
      then .ok (u32le RESOURCE_HEADER_TEXTURE ++ u32le (env.temp_blob.length % 2 ^ 32) ++
        env.temp_blob)
      else .error (.toolchainExitFailure ("Failed to compile texture:\n" ++
        env.combined_output)) := by
  simp [compile, hdesc, hsrc, hex, hres, htc, hsp, sjson_parse_object, sjson_parse_string,
    bind, Except.bind, pure, Except.pure]

end Crown

namespace Crown

/-- A string outside the format table maps to the `COUNT` sentinel. -/
theorem to_enum_not_mem (s : String) (h : s ∉ recognizedFormatNames) :
    texture_format_to_enum s = .COUNT := by
  unfold texture_format_to_enum
  cases hf : List.find? (fun i => i.name == s) s_texture_formats with
  | none => rfl
  | some i =>
    exfalso
    have hp := List.find?_some hf
    have hmem := List.mem_of_find?_eq_some hf
    apply h
    rw [beq_iff_eq] at hp
    rw [← hp]
    exact List.mem_map_of_mem (fun x => x.name) hmem

/-- `parse_output` on a matching platform block whose `format` value is
unrecognized fails with the unknown-format error. -/
theorem parse_output_unknown (platform s : String) (gm : Option Bool) (ms : Option Int)
    (nm : Option Bool) (h : texture_format_to_enum s = .COUNT) :
    parse_output {} [(platform, mkBlock (some s) gm ms nm)] platform =
      .error .unknownFormat := by
  rcases gm with _ | g <;> rcases ms with _ | m <;> rcases nm with _ | n <;>
    simp_all [parse_output, mkBlock, json_object_has, json_object_get, sjson_parse_object,
      sjson_parse_string, bind, Except.bind, pure, Except.pure]

/-- An error during output-settings resolution aborts `compile` with that
error and no output bytes. -/
theorem compile_resolve_error (env : CompileEnv) (fields : List (String × Json))
    (srcName : String) (e : CompileError)
    (hdesc : env.descriptor = .obj fields)
    (hsrc : json_object_get fields "source" = .ok (.str srcName))
    (hex : env.source_exists = true)
    (hres : resolve_output_settings fields env.platform = .error e) :
    compile env = .error e := by
  simp [compile, hdesc, hsrc, hex, hres, sjson_parse_object, sjson_parse_string,
    bind, Except.bind, pure, Except.pure]

/-- Claim C1: round-trip of the binary resource format — for every payload
byte sequence `p` (with length below `2^32`), a successful compile writes
the little-endian stream `u32 version_tag | u32 payload_size | payload`
whose payload-size field decodes to `p.length` and whose tag field decodes
to `RESOURCE_HEADER RESOURCE_VERSION_TEXTURE`, and `load` applied to that
stream recovers exactly the bytes `p` (passing the version check against
the tag that was written). -/
theorem C1_roundtrip (p : List Nat) (hp : p.length < 2 ^ 32) :
    compile (happyEnv (mkOutputDescriptor "img.png" "linux" (mkBlock none none none none)) p)
        = .ok (u32le RESOURCE_HEADER_TEXTURE ++ u32le p.length ++ p) ∧
      decodeU32 ((u32le RESOURCE_HEADER_TEXTURE ++ u32le p.length ++ p).take 4) =
        RESOURCE_HEADER RESOURCE_VERSION_TEXTURE ∧
      decodeU32 (((u32le RESOURCE_HEADER_TEXTURE ++ u32le p.length ++ p).drop 4).take 4) =
        p.length ∧
      load (u32le RESOURCE_HEADER_TEXTURE ++ u32le p.length ++ p) =
        .ok { mem := p, handle := BGFX_INVALID_HANDLE } := by
  refine ⟨?_, ?_, ?_, load_stream p hp⟩
  · have he := compile_eval
      (happyEnv (mkOutputDescriptor "img.png" "linux" (mkBlock none none none none)) p)
      [("source", .str "img.png"),
       ("output", .obj [("linux", mkBlock none none none none)])]
      "img.png" "texturec" {} rfl rfl rfl rfl rfl rfl
    rw [he]
    have hm : p.length % 4294967296 = p.length := Nat.mod_eq_of_lt (by omega)
    simp [happyEnv, hm]
  · simp [u32le, List.take, decodeU32, RESOURCE_HEADER_TEXTURE, RESOURCE_HEADER,
      RESOURCE_VERSION_TEXTURE]
  · simp [u32le, List.take, List.drop, decodeU32]
    omega

/-- Witness for C1 at the concrete payload `[7, 8, 9]`. -/
theorem C1_roundtrip_witness :
    ([7, 8, 9] : List Nat).length < 2 ^ 32 ∧
      load (u32le RESOURCE_HEADER_TEXTURE ++ u32le ([7, 8, 9] : List Nat).length ++ [7, 8, 9]) =
        .ok { mem := [7, 8, 9], handle := BGFX_INVALID_HANDLE } :=
  ⟨by decide, (C1_roundtrip [7, 8, 9] (by decide)).2.2.2⟩

/-- Claim C4: `texture_format_to_enum` maps the eight recognized names
bijectively onto the non-sentinel format values (each non-`COUNT` format
is hit by exactly one recognized name, and no recognized name yields the
sentinel); every unrecognized string maps to the sentinel, and a compile
job whose matching platform block carries such a `format` value fails with
the unknown-format error and produces no output bytes. -/
theorem C4_format_bijection :
    (∀ f : TextureFormat, f ≠ .COUNT →
        (recognizedFormatNames.filter (fun n => texture_format_to_enum n == f)).length = 1) ∧
      (∀ n ∈ recognizedFormatNames, texture_format_to_enum n ≠ .COUNT) ∧
      (∀ s : String, s ∉ recognizedFormatNames →
        texture_format_to_enum s = .COUNT ∧
        compile (happyEnv (mkOutputDescriptor "img.png" "linux"
            (mkBlock (some s) none none none)) []) = .error .unknownFormat) := by
  refine ⟨by decide, by decide, fun s hs => ?_⟩
  have hc := to_enum_not_mem s hs
  refine ⟨hc, ?_⟩
  exact compile_resolve_error _
    [("source", .str "img.png"), ("output", .obj [("linux", mkBlock (some s) none none none)])]
    "img.png" .unknownFormat rfl rfl rfl
    (by show resolve_output_settings
          [("source", .str "img.png"),
           ("output", .obj [("linux", mkBlock (some s) none none none)])] "linux" =
          .error .unknownFormat
        rw [resolve_with_output]
        exact parse_output_unknown "linux" s none none none hc)

/-- Witness for C4 at the unrecognized format string `"BC7"`. -/
theorem C4_format_bijection_witness :
    ("BC7" : String) ∉ recognizedFormatNames ∧
      texture_format_to_enum "BC7" = .COUNT ∧
      compile (happyEnv (mkOutputDescriptor "img.png" "linux"
          (mkBlock (some "BC7") none none none)) []) = .error .unknownFormat :=
  ⟨by decide, (C4_format_bijection.2.2 "BC7" (by decide)).1,
    (C4_format_bijection.2.2 "BC7" (by decide)).2⟩

/-- Claim C5: a compile job that reaches the converter and sees it exit
nonzero fails with an error that embeds the captured combined output, and
produces no output bytes (the result is an error, not a stream). -/
theorem C5_toolchain_exit_failure (env : CompileEnv) (fields : List (String × Json))
    (srcName t : String) (os : OutputSettings)
    (hdesc : env.descriptor = .obj fields)
    (hsrc : json_object_get fields "source" = .ok (.str srcName))
    (hex : env.source_exists = true)
    (hres : resolve_output_settings fields env.platform = .ok os)
    (htc : env.texturec = some t)
    (hsp : env.spawn_ok = true)
    (hec : env.exit_code ≠ 0) :
    compile env =
      .error (.toolchainExitFailure ("Failed to compile texture:\n" ++ env.combined_output)) := by
  rw [compile_eval env fields srcName t os hdesc hsrc hex hres htc hsp, if_neg hec]

/-- Witness for C5: converter exit code 1 with captured output `"boom"`. -/
theorem C5_toolchain_exit_failure_witness :
    compile { descriptor := mkOutputDescriptor "img.png" "linux" (mkBlock none none none none)
            , platform := "linux"
            , source_exists := true
            , texturec := some "texturec"
            , tex_src := "src.png"
            , tex_out := "out.ktx"
            , spawn_ok := true
            , exit_code := 1
            , combined_output := "boom"
            , temp_blob := [] } =
      .error (.toolchainExitFailure ("Failed to compile texture:\n" ++ "boom")) :=
  C5_toolchain_exit_failure _
    [("source", .str "img.png"), ("output", .obj [("linux", mkBlock none none none none)])]
    "img.png" "texturec" {} rfl rfl rfl rfl rfl rfl (by decide)

/-- Claim C6: a stream whose leading four bytes do not decode to the
expected version tag makes `load` fail fatally with the version-mismatch
error, regardless of everything after those four bytes (so no payload byte
is read and no resource is allocated). -/
theorem C6_wrong_version (b0 b1 b2 b3 : Nat) (rest : List Nat)
    (h : decodeU32 [b0, b1, b2, b3] ≠ RESOURCE_HEADER_TEXTURE) :
    load (b0 :: b1 :: b2 :: b3 :: rest) = .error .wrongVersion := by
  unfold load
  rw [if_neg (by simp)]
  rw [if_pos (by simpa [List.take] using h)]

/-- Witness for C6 at the all-zero header. -/
theorem C6_wrong_version_witness :
    load [0, 0, 0, 0, 5, 5] = .error .wrongVersion :=
  C6_wrong_version 0 0 0 0 [5, 5] (by decide)

/-- Claim C7: in the lifecycle state machine, `online` is reachable only
from the Loaded or Offline states, `unload` is reachable only from
Offline, and an `unload` attempted while Online is rejected. -/
theorem C7_lifecycle :
    (∀ s s', lifecycle_step s .online = some s' → s = .loaded ∨ s = .offline) ∧
      (∀ s s', lifecycle_step s .unload = some s' → s = .offline) ∧
      lifecycle_step .online .unload = none := by decide

/-- Witness for C7, applying the ordering property at the Offline state. -/
theorem C7_lifecycle_witness :
    RState.offline = RState.loaded ∨ RState.offline = RState.offline :=
  C7_lifecycle.1 .offline .online rfl

/-- Claim C8: `online` and `offline` mutate at most the backend handle
field — `online` rewrites only `handle`, `offline` leaves the resource
record untouched entirely — so the payload survives and a resource taken
offline can go online again without a new `load`. -/
theorem C8_frame (b : Bgfx) (tr : TextureResource) :
    (online b tr).1.mem = tr.mem ∧
      (online b tr).1 = { tr with handle := (bgfx_createTexture b tr.mem).1 } ∧
      (offline b tr).1 = tr ∧
      (online (offline ((online b tr).2) ((online b tr).1)).2
        (offline ((online b tr).2) ((online b tr).1)).1).1.mem = tr.mem :=
  ⟨rfl, rfl, rfl, rfl⟩

/-- Claim C9: every successful `load` returns a resource whose backend
handle is the invalid-handle sentinel. -/
theorem C9_fresh_handle (file : List Nat) (tr : TextureResource)
    (h : load file = .ok tr) : tr.handle = BGFX_INVALID_HANDLE := by
  unfold load at h
  split at h
  · exact absurd h (by simp)
  · split at h
    · exact absurd h (by simp)
    · dsimp only at h
      split at h
      · exact absurd h (by simp)
      · split at h
        · exact absurd h (by simp)
        · have h2 := (Except.ok.injEq _ _).mp h
          rw [← h2]

/-- Witness for C9 at a concrete well-formed stream. -/
theorem C9_fresh_handle_witness :
    load [1, 0, 0, 0, 2, 0, 0, 0, 7, 8] =
        .ok { mem := [7, 8], handle := BGFX_INVALID_HANDLE } ∧
      TextureResource.handle { mem := [7, 8], handle := BGFX_INVALID_HANDLE } =
        BGFX_INVALID_HANDLE :=
  ⟨rfl, C9_fresh_handle [1, 0, 0, 0, 2, 0, 0, 0, 7, 8] _ rfl⟩

/-- Claim C10: within a matching platform output block the four settings
keys are independently optional — each absent key leaves its fixed default
(format `RGBA8`, `generate_mips = true`, `mip_skip_smallest = 0`,
`normal_map = false`) and each present key overrides only its own
setting. -/
theorem C10_independent_keys (platform srcName : String) (f : Option String)
    (gm : Option Bool) (ms : Option Int) (nm : Option Bool)
    (hf : ∀ s, f = some s → texture_format_to_enum s ≠ .COUNT) :
    resolve_output_settings
      [("source", .str srcName), ("output", .obj [(platform, mkBlock f gm ms nm)])] platform =
      .ok { format := match f with
                      | none => .RGBA8
                      | some s => texture_format_to_enum s
          , generate_mips := gm.getD true
          , mip_skip_smallest := match ms with
                                 | none => 0
                                 | some i => (i % (2 ^ 32 : Int)).toNat
          , normal_map := nm.getD false } := by
  rw [resolve_with_output]
  exact parse_output_mkBlock platform f gm ms nm hf

/-- Witness for C10: only `format` and `mip_skip_smallest` present. -/
theorem C10_independent_keys_witness :
    resolve_output_settings
      [("source", .str "img.png"),
       ("output", .obj [("linux", mkBlock (some "BC1") none (some 3) none)])] "linux" =
      .ok { format := .BC1, generate_mips := true, mip_skip_smallest := 3,
            normal_map := false } :=
  C10_independent_keys "linux" "img.png" (some "BC1") none (some 3) none
    (by intro s hs; cases hs; decide)

end Crown

namespace Crown

/-- Counterexample to claim C2 as stated: with
`mip_skip_smallest = 100000` in the matching platform block, the built
argument vector is
`[texturec, -f, in.png, -o, out.ktx, -t, BC3, "", -m, --mipskip,
"--mipskip 10000"]` — the 16-byte snprintf buffer truncates the combined
token, so the value `100000` appears nowhere in the vector (neither as the
combined token `"--mipskip 100000"` nor on its own), refuting "the flag
and its value are present exactly once" for every positive value. -/
theorem C2_counterexample :
    resolve_output_settings
        [("source", .str "img.png"),
         ("output", .obj [("linux", mkBlock (some "BC3") none (some 100000) none)])] "linux" =
      .ok { format := .BC3, generate_mips := true, mip_skip_smallest := 100000,
            normal_map := false } ∧
      build_argv "texturec" "in.png" "out.ktx"
          { format := .BC3, generate_mips := true, mip_skip_smallest := 100000,
            normal_map := false } =
        ["texturec", "-f", "in.png", "-o", "out.ktx", "-t", "BC3", "", "-m",
         "--mipskip", "--mipskip 10000"] ∧
      ("--mipskip " ++ toString 100000) ∉
        build_argv "texturec" "in.png" "out.ktx"
          { format := .BC3, generate_mips := true, mip_skip_smallest := 100000,
            normal_map := false } ∧
      ("100000" : String) ∉
        build_argv "texturec" "in.png" "out.ktx"
          { format := .BC3, generate_mips := true, mip_skip_smallest := 100000,
            normal_map := false } := by
  refine ⟨rfl, rfl, by decide, by decide⟩

/-- Claim C2 (amended): for a descriptor whose matching platform block
sets `mip_skip_smallest` to `v`, the argument vector omits the
`--mipskip` flag entirely when `v = 0` (no element is the flag or any
combined mipskip token), and for positive `v` it contains the bare flag
exactly once and the combined token `--mipskip <v>` — truncated to 15
characters by the snprintf buffer, hence carrying the exact value only for
`v ≤ 99999` — exactly once; the converter path and the two resolved file
paths are assumed not to be mipskip tokens themselves. -/
theorem C2_mipskip_flag (platform srcName t src out f : String)
    (gm nm : Option Bool) (v : Int)
    (hf : texture_format_to_enum f ≠ .COUNT)
    (hv0 : 0 ≤ v) (hv32 : v < 2 ^ 32)
    (ht1 : t ≠ "--mipskip") (ht2 : ∀ k, t ≠ mipskip_str k)
    (hs1 : src ≠ "--mipskip") (hs2 : ∀ k, src ≠ mipskip_str k)
    (ho1 : out ≠ "--mipskip") (ho2 : ∀ k, out ≠ mipskip_str k) :
    ∃ os : OutputSettings,
      resolve_output_settings
          [("source", .str srcName),
           ("output", .obj [(platform, mkBlock (some f) gm (some v) nm)])] platform =
        .ok os ∧
      os.mip_skip_smallest = v.toNat ∧
      (v = 0 → (build_argv t src out os).count "--mipskip" = 0 ∧
        ∀ k, (build_argv t src out os).count (mipskip_str k) = 0) ∧
      (0 < v → (build_argv t src out os).count "--mipskip" = 1 ∧
        (build_argv t src out os).count (mipskip_str os.mip_skip_smallest) = 1) := by
  have hres : resolve_output_settings
      [("source", .str srcName),
       ("output", .obj [(platform, mkBlock (some f) gm (some v) nm)])] platform =
      .ok { format := texture_format_to_enum f, generate_mips := gm.getD true,
            mip_skip_smallest := (v % (2 ^ 32 : Int)).toNat,
            normal_map := nm.getD false } := by
    rw [resolve_with_output]
    have h := parse_output_mkBlock platform (some f) gm (some v) nm
      (by intro s hs; cases hs; exact hf)
    simpa using h
  have hv : ((v % (2 ^ 32 : Int)).toNat : Nat) = v.toNat := by
    rw [Int.emod_eq_of_lt hv0 hv32]
  refine ⟨_, hres, hv, fun h0 => ?_, fun hpos => ?_⟩
  · exact build_argv_no_mipskip t src out _ ht1 ht2 hs1 hs2 ho1 ho2
      (by simp [hv, h0])
  · exact build_argv_mipskip_count t src out _ ht1 ht2 hs1 hs2 ho1 ho2
      (by simp only [hv]; omega)

/-- Witness for C2 (amended) with skip count 2: the flag and the combined
token `"--mipskip 2"` each occur exactly once. -/
theorem C2_mipskip_flag_witness :
    (texture_format_to_enum "BC3" ≠ .COUNT ∧ (0 : Int) ≤ 2 ∧ (2 : Int) < 2 ^ 32) ∧
      ∃ os : OutputSettings,
        resolve_output_settings
            [("source", .str "img.png"),
             ("output", .obj [("linux", mkBlock (some "BC3") none (some 2) none)])] "linux" =
          .ok os ∧
        os.mip_skip_smallest = (2 : Int).toNat ∧
        ((2 : Int) = 0 →
          (build_argv "texturec" "in.png" "out.ktx" os).count "--mipskip" = 0 ∧
          ∀ k, (build_argv "texturec" "in.png" "out.ktx" os).count (mipskip_str k) = 0) ∧
        ((0 : Int) < 2 →
          (build_argv "texturec" "in.png" "out.ktx" os).count "--mipskip" = 1 ∧
          (build_argv "texturec" "in.png" "out.ktx" os).count
            (mipskip_str os.mip_skip_smallest) = 1) :=
  ⟨⟨by decide, by decide, by decide⟩,
    C2_mipskip_flag "linux" "img.png" "texturec" "in.png" "out.ktx" "BC3" none none 2
      (by decide) (by decide) (by decide)
      (by decide) (fun k => ne_mipskip_str_of_short _ k (by decide))
      (by decide) (fun k => ne_mipskip_str_of_short _ k (by decide))
      (by decide) (fun k => ne_mipskip_str_of_short _ k (by decide))⟩

/-- Counterexample to claim C3 as stated: on a descriptor whose `output`
object exists but lacks the current platform (`linux`) while top-level
`generate_mips = false` and `normal_map = true` are present, the source's
resolution keeps all constructor defaults (ignoring the top-level keys),
whereas the spec's described fallback would read them — the two results
differ. -/
theorem C3_counterexample :
    resolve_output_settings
        [("source", .str "img.png"),
         ("output", .obj [("windows", mkBlock (some "BC3") (some true) (some 2) none)]),
         ("generate_mips", .boolean false), ("normal_map", .boolean true)] "linux" =
      .ok { format := .RGBA8, generate_mips := true, mip_skip_smallest := 0,
            normal_map := false } ∧
      resolve_output_settings_spec
        [("source", .str "img.png"),
         ("output", .obj [("windows", mkBlock (some "BC3") (some true) (some 2) none)]),
         ("generate_mips", .boolean false), ("normal_map", .boolean true)] "linux" =
      .ok { format := .RGBA8, generate_mips := false, mip_skip_smallest := 0,
            normal_map := true } ∧
      ({ format := .RGBA8, generate_mips := true, mip_skip_smallest := 0,
         normal_map := false } : OutputSettings) ≠
        { format := .RGBA8, generate_mips := false, mip_skip_smallest := 0,
          normal_map := true } :=
  ⟨rfl, rfl, by decide⟩

/-- Claim C3 (amended): when the `output` object exists and contains the
current platform, the four overrides are parsed componentwise from the
platform sub-object; when `output` exists but lacks the current platform,
every setting keeps its default and the top-level legacy keys are ignored;
only when `output` is absent entirely are the top-level
`generate_mips`/`normal_map` keys read, with format left at the default
`RGBA8`. -/
theorem C3_output_resolution (platform p' srcName : String) (block : Json)
    (f : Option String) (gm : Option Bool) (ms : Option Int) (nm : Option Bool)
    (g n : Bool) (hne : p' ≠ platform)
    (hf : ∀ s, f = some s → texture_format_to_enum s ≠ .COUNT) :
    (resolve_output_settings
        [("source", .str srcName), ("output", .obj [(platform, mkBlock f gm ms nm)])]
        platform =
      .ok { format := match f with
                      | none => .RGBA8
                      | some s => texture_format_to_enum s
          , generate_mips := gm.getD true
          , mip_skip_smallest := match ms with
                                 | none => 0
                                 | some i => (i % (2 ^ 32 : Int)).toNat
          , normal_map := nm.getD false }) ∧
    (resolve_output_settings
        [("source", .str srcName), ("output", .obj [(p', block)]),
         ("generate_mips", .boolean g), ("normal_map", .boolean n)] platform = .ok {}) ∧
    (resolve_output_settings
        [("source", .str srcName), ("generate_mips", .boolean g), ("normal_map", .boolean n)]
        platform = .ok { generate_mips := g, normal_map := n }) :=
  ⟨by rw [resolve_with_output]; exact parse_output_mkBlock platform f gm ms nm hf,
   resolve_output_without_platform srcName p' platform block g n hne,
   resolve_legacy srcName platform g n⟩

/-- Witness for C3 (amended): `output` present without the `linux` key
yields the constructor defaults despite top-level legacy keys. -/
theorem C3_output_resolution_witness :
    resolve_output_settings
        [("source", .str "img.png"),
         ("output", .obj [("windows", .obj [])]),
         ("generate_mips", .boolean false), ("normal_map", .boolean true)] "linux" =
      .ok { format := .RGBA8, generate_mips := true, mip_skip_smallest := 0,
            normal_map := false } :=
  (C3_output_resolution "linux" "windows" "img.png" (.obj []) none none none none
    false true (by decide) (by intro s hs; cases hs)).2.1

end Crown
